import Mathlib

/-!
# FileSearch MCP Server — verification of the request-execution pipeline

A shallow embedding of the core pipeline of the `retrieveDocs` tool
(`src/server.ts`): the error classifier `toMcpError` (lines 20–85), the
jittered exponential backoff (lines 265–267), the chunk normalizer
(lines 205–246), and the bounded-attempt retry loop (lines 154–297),
together with the data model from `src/types.ts`.

Faults raised during one attempt are modelled by the inductive `Fault`:
a JavaScript `Error` value (carrying its `name` and `message` strings),
a fetch `Response` object (carrying its status and the best-effort body
text, `none` when the body cannot be read), or any other thrown value
(carrying its string rendering).  Randomness — the jitter sample and the
fallback-id suffix — is passed in as explicit parameters, and the
upstream behaviour of each attempt is an environment `Nat → AttemptOutcome`.
-/

namespace FileSearchMcp

/-- The five `McpError.code` values (`src/types.ts`, interface `McpError`). -/
inductive ErrCode where
  | OPENAI_RATE_LIMIT
  | OPENAI_UPSTREAM_ERROR
  | OPENAI_NETWORK_ERROR
  | OPENAI_TIMEOUT
  | INTERNAL_SERVER_ERROR
deriving DecidableEq, Repr, BEq

/-- The `details` field of an `McpError`: either the `{ status, errorText }`
record built for HTTP-response faults (`server.ts` lines 44, 50, 57) or the
plain string used by the unknown-fault fallback (line 83). -/
inductive ErrDetails where
  | statusText (status : Nat) (errorText : String)
  | str (s : String)
deriving DecidableEq, Repr

/-- A structured error returned to the MCP client (`src/types.ts`). -/
structure McpError where
  code : ErrCode
  message : String
  details : Option ErrDetails
deriving DecidableEq, Repr

/-- A fault value caught by the retry loop and handed to `toMcpError`
(`server.ts` line 250).  `errorVal` is a JavaScript `Error` (its `name` and
`message`, both strings — `Error.message` is string-typed, so it is never
nullish); `response` is a fetch `Response` thrown at line 189, with
`bodyText = none` when `error.text()` itself fails (lines 33–38); `other`
is any non-`Error`, non-`Response` thrown value, carrying `String(error)`. -/
inductive Fault where
  | errorVal (name message : String)
  | response (status : Nat) (bodyText : Option String)
  | other (rendering : String)
deriving DecidableEq, Repr

/-- `pat` occurs at the head of `s` (helper for `containsSub`). -/
def charsPrefixOf : List Char → List Char → Bool
  | [], _ => true
  | _ :: _, [] => false
  | c :: cs, d :: ds => c = d && charsPrefixOf cs ds

/-- `pat` occurs somewhere in `s` (helper for `containsSub`). -/
def charsInfixOf (pat : List Char) : List Char → Bool
  | [] => charsPrefixOf pat []
  | d :: ds => charsPrefixOf pat (d :: ds) || charsInfixOf pat ds

/-- JavaScript `s.includes(pat)`: `pat` is a contiguous substring of `s`. -/
def containsSub (s pat : String) : Bool :=
  charsInfixOf pat.toList s.toList

/-- Placeholder substituted when the error-response body cannot be read
(`server.ts` line 33). -/
def bodyReadPlaceholder : String := "Could not read error response body."

/-- The fixed timeout message (`server.ts` line 26). -/
def timeoutMessage : String := "OpenAI API request timed out after 30 seconds."

/-- `toMcpError` (`server.ts` lines 20–85): maps a caught fault to a
structured `McpError`.  Branch order follows the source: the `AbortError`
check on `Error` values first, then `Response` values, then generic
`Error` values (network indicator in the message, or name `TypeError`),
then the unknown-value fallback.  The `?? default` fallbacks on
`error.message` (lines 69, 75) are identity on a string-typed message and
are therefore absent here. -/
def toMcpError : Fault → McpError
  | .errorVal name message =>
    if name = "AbortError" then
      { code := .OPENAI_TIMEOUT, message := timeoutMessage, details := none }
    else if containsSub message "fetch failed" || name = "TypeError" then
      { code := .OPENAI_NETWORK_ERROR, message := message, details := none }
    else
      { code := .INTERNAL_SERVER_ERROR, message := message, details := none }
  | .response status bodyText =>
    let errorText := bodyText.getD bodyReadPlaceholder
    if status = 429 then
      { code := .OPENAI_RATE_LIMIT
        message := "OpenAI API rate limit exceeded."
        details := some (.statusText status errorText) }
    else if status ≥ 500 then
      { code := .OPENAI_UPSTREAM_ERROR
        message := "OpenAI API returned an upstream server error."
        details := some (.statusText status errorText) }
    else
      { code := .INTERNAL_SERVER_ERROR
        message := "OpenAI API request failed with status " ++ toString status ++ "."
        details := some (.statusText status errorText) }
  | .other rendering =>
    { code := .INTERNAL_SERVER_ERROR
      message := "An unknown error occurred."
      details := some (.str rendering) }

/-- A single result item inside `file_search_call.results`
(`src/types.ts`, interface `SearchResultItem`): all three fields optional. -/
structure SearchResultItem where
  id : Option String
  text : Option String
  score : Option ℚ
deriving DecidableEq, Repr

/-- An item of the response's `output` array (`src/types.ts`, interface
`OutputItem`): a type tag and an optional results list.  `results = none`
models both an absent field and a non-array value, since
`Array.isArray(item.results)` rejects both (`server.ts` line 215). -/
structure OutputItem where
  type : String
  results : Option (List SearchResultItem)
deriving DecidableEq, Repr

/-- The parsed upstream JSON body (`src/types.ts`,
interface `OpenAiFileSearchResponse`). -/
structure OpenAiFileSearchResponse where
  output : Option (List OutputItem)
deriving DecidableEq, Repr

/-- A ranked chunk returned to the caller (`src/types.ts`, interface `Chunk`). -/
structure Chunk where
  id : String
  text : String
  score : ℚ
deriving DecidableEq, Repr

/-- Builds one `Chunk` from one result item (`server.ts` lines 219–228):
missing `id` falls back to `"unknown_id_" ++ rnd` where `rnd` stands for
the random base-36 suffix `Math.random().toString(36).substring(2, 15)`;
missing `text` falls back to `""`; missing `score` falls back to `0`. -/
def mkChunk (rnd : String) (r : SearchResultItem) : Chunk :=
  { id := r.id.getD ("unknown_id_" ++ rnd)
    text := r.text.getD ""
    score := r.score.getD 0 }

/-- The result items an output item contributes (`server.ts` lines 213–216):
its `results`, when the item's type is `"file_search_call"` and `results`
is a proper array; nothing otherwise. -/
def callResults (item : OutputItem) : List SearchResultItem :=
  match item.results with
  | some rs => if item.type = "file_search_call" then rs else []
  | none => []

/-- The chunk-extraction loop (`server.ts` lines 205–240): traverse
`responseData.output ?? []` in order, and for each file-search-call item
push one chunk per result item, in order.  `rnd k` supplies the random
suffix used if the `k`-th emitted chunk (in emission order) lacks an id. -/
def extractChunks (rnd : Nat → String) (resp : OpenAiFileSearchResponse) :
    List Chunk :=
  ((resp.output.getD []).flatMap callResults).enum.map
    fun p => mkChunk (rnd p.1) p.2

/-- The jitter computed at `server.ts` line 266 from one uniform sample
`u ∈ [0, 1)`: `Math.floor(u * 201) - 100`. -/
def jitterOf (u : ℚ) : Int :=
  ⌊u * 201⌋ - 100

/-- Retry-delay base (`server.ts` line 152): 500 ms. -/
def baseDelay : Nat := 500

/-- The wait before the retry following failed attempt `attempt`
(`server.ts` lines 265–267): `max(0, baseDelay * 2 ^ attempt + jitter)`,
with the jitter drawn from the uniform sample `u`. -/
def backoffWait (attempt : Nat) (u : ℚ) : Int :=
  max 0 (baseDelay * 2 ^ attempt + jitterOf u)

/-- Attempt budget (`server.ts` line 151). -/
def maxAttempts : Nat := 3

/-- The retryable error codes (`server.ts` lines 257–262). -/
def retryableCodes : List ErrCode :=
  [.OPENAI_RATE_LIMIT, .OPENAI_UPSTREAM_ERROR, .OPENAI_NETWORK_ERROR,
   .OPENAI_TIMEOUT]

/-- `retryableCodes.includes(code)` (`server.ts` line 262). -/
def isRetryable (c : ErrCode) : Bool :=
  retryableCodes.contains c

/-- What one attempt's `fetch`/parse does: either a parsed 2xx response
body, or a fault (thrown non-ok `Response`, abort, network error, …). -/
inductive AttemptOutcome where
  | success (resp : OpenAiFileSearchResponse)
  | failure (f : Fault)

/-- Terminal value of one `execute` invocation: the returned chunk list
(line 246), the augmented error thrown at line 289, or the defensive
fallback `throw` after the loop (line 297). -/
inductive ExecResult where
  | chunks (cs : List Chunk)
  | mcpErr (e : McpError)
  | fallbackThrow (msg : String)
deriving DecidableEq, Repr

/-- Message of the defensive throw after the loop (`server.ts` line 297). -/
def fallbackMsg : String := "OpenAI request failed after multiple retries."

/-- Observable trace of one invocation: the terminal result, how many
HTTPS calls were made, and the backoff sleeps awaited (in order). -/
structure RunTrace where
  result : ExecResult
  calls : Nat
  sleeps : List Int
deriving DecidableEq, Repr

/-- The retry loop of `execute` (`server.ts` lines 154–292) plus the
trailing fallback throw (line 297).  `env i` is what attempt `i` does,
`rnd` supplies fallback-id suffixes, `jit i` the uniform jitter sample
before the retry that follows attempt `i`.  `fuel` counts the loop
iterations left (`maxAttempts - i` at entry); exhausting it models
falling out of the `for` loop into the trailing `throw`. -/
def loopFrom (env : Nat → AttemptOutcome) (rnd : Nat → String)
    (jit : Nat → ℚ) : Nat → Nat → Nat → List Int → RunTrace
  | _, 0, calls, sleeps =>
    { result := .fallbackThrow fallbackMsg, calls := calls, sleeps := sleeps }
  | i, fuel + 1, calls, sleeps =>
    match env i with
    | .success resp =>
      { result := .chunks (extractChunks rnd resp)
        calls := calls + 1
        sleeps := sleeps }
    | .failure f =>
      let e := toMcpError f
      if isRetryable e.code ∧ i < maxAttempts - 1 then
        loopFrom env rnd jit (i + 1) fuel (calls + 1)
          (sleeps ++ [backoffWait i (jit i)])
      else
        { result := .mcpErr e, calls := calls + 1, sleeps := sleeps }

/-- One full run of the `execute` pipeline body (after argument
validation): the retry loop from attempt 0 with a fresh trace. -/
def execute (env : Nat → AttemptOutcome) (rnd : Nat → String)
    (jit : Nat → ℚ) : RunTrace :=
  loopFrom env rnd jit 0 maxAttempts 0 []

/-- The `retrieveDocs` tool entry: `z.string().min(1)` rejects an empty
question before `execute` runs (`server.ts` lines 120–122); a valid
question reaches the pipeline. -/
def retrieveDocs (question : String) (env : Nat → AttemptOutcome)
    (rnd : Nat → String) (jit : Nat → ℚ) : Option RunTrace :=
  if 1 ≤ question.length then some (execute env rnd jit) else none

/-- Environment in which every attempt's fetch yields an HTTP 500 with
body text `b` (test scenario of spec §8). -/
def envAll500 (b : Option String) : Nat → AttemptOutcome :=
  fun _ => .failure (.response 500 b)

/-- Environment in which every attempt's fetch yields an HTTP 401 with
body text `b` (test scenario of spec §8). -/
def envAll401 (b : Option String) : Nat → AttemptOutcome :=
  fun _ => .failure (.response 401 b)

/-- Spec-side characterization of the normalizer (§4.3): keep exactly the
output items whose type tag is the file-search-call marker and whose result
list is a proper sequence, then concatenate their result lists in order. -/
def selectedResults (items : List OutputItem) : List SearchResultItem :=
  (items.filter fun it => it.type == "file_search_call" && it.results.isSome).flatMap
    fun it => it.results.getD []

end FileSearchMcp

namespace FileSearchMcp

/-- A nonempty string has positive length. -/
theorem one_le_length_of_ne_empty {q : String} (h : q ≠ "") : 1 ≤ q.length := by
  rcases q with ⟨l⟩
  cases l with
  | nil => cases h rfl
  | cons c cs => simp [String.length]

/-- The per-item flattening done by the extraction loop coincides with
first filtering the selected items and then concatenating their results. -/
theorem flatMap_callResults_eq_selectedResults (items : List OutputItem) :
    items.flatMap callResults = selectedResults items := by
  induction items with
  | nil => rfl
  | cons it rest ih =>
    rcases it with ⟨ty, results⟩
    cases results with
    | none =>
      simp [selectedResults, callResults, List.filter_cons] at ih ⊢
      exact ih
    | some rs =>
      by_cases hty : ty = "file_search_call"
      · subst hty
        simp [selectedResults, callResults, List.filter_cons] at ih ⊢
        exact ih
      · simp [selectedResults, callResults, List.filter_cons, hty] at ih ⊢
        exact ih

/-- As long as at least `maxAttempts - i` loop iterations remain, the retry
loop ends in a chunk list or an `McpError` — it never falls through to the
trailing throw. -/
theorem loopFrom_terminal (env : Nat → AttemptOutcome) (rnd : Nat → String)
    (jit : Nat → ℚ) :
    ∀ fuel i calls sleeps, maxAttempts ≤ i + fuel → 0 < fuel →
      (∃ cs, (loopFrom env rnd jit i fuel calls sleeps).result = .chunks cs) ∨
      (∃ e, (loopFrom env rnd jit i fuel calls sleeps).result = .mcpErr e) := by
  intro fuel
  induction fuel with
  | zero => intro i calls sleeps _ h; omega
  | succ fuel ih =>
    intro i calls sleeps hinv _
    cases henv : env i with
    | success resp =>
      exact Or.inl ⟨extractChunks rnd resp, by simp [loopFrom, henv]⟩
    | failure f =>
      by_cases hc : isRetryable (toMcpError f).code = true ∧ i < maxAttempts - 1
      · have hstep : loopFrom env rnd jit i (fuel + 1) calls sleeps =
            loopFrom env rnd jit (i + 1) fuel (calls + 1)
              (sleeps ++ [backoffWait i (jit i)]) := by
          simp [loopFrom, henv, hc]
        rw [hstep]
        exact ih (i + 1) _ _ (by omega) (by omega)
      · have hstep : loopFrom env rnd jit i (fuel + 1) calls sleeps =
            { result := .mcpErr (toMcpError f), calls := calls + 1,
              sleeps := sleeps } := by
          simp [loopFrom, henv, hc]
        rw [hstep]
        exact Or.inr ⟨_, rfl⟩

/-- Unfolding of the classifier on generic `Error` faults whose name is not
`"AbortError"` (`server.ts` lines 62–77). -/
theorem toMcpError_errorVal (name msg : String) (h : name ≠ "AbortError") :
    toMcpError (.errorVal name msg) =
      if containsSub msg "fetch failed" = true ∨ name = "TypeError" then
        { code := .OPENAI_NETWORK_ERROR, message := msg, details := none }
      else
        { code := .INTERNAL_SERVER_ERROR, message := msg, details := none } := by
  simp only [toMcpError, if_neg h, Bool.or_eq_true, decide_eq_true_eq]

/-- Unfolding of the classifier on HTTP-response faults
(`server.ts` lines 30–59). -/
theorem toMcpError_response (s : Nat) (b : Option String) :
    toMcpError (.response s b) =
      if s = 429 then
        { code := .OPENAI_RATE_LIMIT
          message := "OpenAI API rate limit exceeded."
          details := some (.statusText s (b.getD bodyReadPlaceholder)) }
      else if 500 ≤ s then
        { code := .OPENAI_UPSTREAM_ERROR
          message := "OpenAI API returned an upstream server error."
          details := some (.statusText s (b.getD bodyReadPlaceholder)) }
      else
        { code := .INTERNAL_SERVER_ERROR
          message := "OpenAI API request failed with status " ++ toString s ++ "."
          details := some (.statusText s (b.getD bodyReadPlaceholder)) } := by
  simp only [toMcpError, ge_iff_le]

/-- Claim C10: a fault that is an `Error` named `"AbortError"` is classified
as `OPENAI_TIMEOUT` with the fixed timeout message and no details field,
regardless of the message's content — even one containing the
network-failure indicator: the timeout branch (`server.ts` lines 22–28)
precedes the network-error and generic branches. -/
theorem C10_abort_takes_precedence :
    (∀ msg, toMcpError (.errorVal "AbortError" msg) =
      { code := .OPENAI_TIMEOUT, message := timeoutMessage, details := none }) ∧
    containsSub "request fetch failed early" "fetch failed" = true ∧
    toMcpError (.errorVal "AbortError" "request fetch failed early") =
      { code := .OPENAI_TIMEOUT, message := timeoutMessage, details := none } :=
  ⟨fun _ => rfl, by decide, rfl⟩

/-- Claim C9: the classifier is deterministic — two runs on identical fault
inputs (including the same best-effort body text for response faults)
produce the same code, the same message, and the same details. -/
theorem C9_classifier_deterministic (f g : Fault) (h : f = g) :
    (toMcpError f).code = (toMcpError g).code ∧
    (toMcpError f).message = (toMcpError g).message ∧
    (toMcpError f).details = (toMcpError g).details := by
  subst h
  exact ⟨rfl, rfl, rfl⟩

/-- Witness for C9 at a concrete response fault. -/
theorem C9_classifier_deterministic_witness :
    (toMcpError (.response 429 (some "slow down"))).code =
      (toMcpError (.response 429 (some "slow down"))).code ∧
    (toMcpError (.response 429 (some "slow down"))).message =
      (toMcpError (.response 429 (some "slow down"))).message ∧
    (toMcpError (.response 429 (some "slow down"))).details =
      (toMcpError (.response 429 (some "slow down"))).details :=
  C9_classifier_deterministic (.response 429 (some "slow down"))
    (.response 429 (some "slow down")) rfl

/-- Counterexample to claim C6 as stated: an `Error` named `"TypeError"`
whose message does not contain the network-failure indicator is still
classified `OPENAI_NETWORK_ERROR`, because the source also tests
`error.name === "TypeError"` (`server.ts` line 65); the claim's
"exactly when the message contains a network-failure indicator" requires
`INTERNAL_SERVER_ERROR` here. -/
theorem C6_counterexample :
    containsSub "boom" "fetch failed" = false ∧
    (toMcpError (.errorVal "TypeError" "boom")).code = .OPENAI_NETWORK_ERROR ∧
    (toMcpError (.errorVal "TypeError" "boom")).code ≠ .INTERNAL_SERVER_ERROR := by
  decide

/-- Claim C6 (amended): for a generic `Error` fault (name not
`"AbortError"`), the classifier returns `OPENAI_NETWORK_ERROR` exactly when
the message contains the network-failure indicator `"fetch failed"` or the
error's name is `"TypeError"`, and `INTERNAL_SERVER_ERROR` in every other
case; in both cases the resulting McpError carries the fault's message. -/
theorem C6_network_classification (name msg : String)
    (h : name ≠ "AbortError") :
    ((toMcpError (.errorVal name msg)).code = .OPENAI_NETWORK_ERROR ↔
      (containsSub msg "fetch failed" = true ∨ name = "TypeError")) ∧
    (¬(containsSub msg "fetch failed" = true ∨ name = "TypeError") →
      (toMcpError (.errorVal name msg)).code = .INTERNAL_SERVER_ERROR) ∧
    (toMcpError (.errorVal name msg)).message = msg := by
  rw [toMcpError_errorVal name msg h]
  by_cases hc : containsSub msg "fetch failed" = true ∨ name = "TypeError"
  · rw [if_pos hc]
    exact ⟨by simp [hc], fun hn => absurd hc hn, rfl⟩
  · rw [if_neg hc]
    refine ⟨?_, fun _ => rfl, rfl⟩
    simp only [hc, iff_false]
    intro hcode
    cases hcode

/-- Witness for C6 (amended) at the `TypeError` input of the
counterexample. -/
theorem C6_network_classification_witness :
    ("TypeError" : String) ≠ "AbortError" ∧
    (((toMcpError (.errorVal "TypeError" "boom")).code = .OPENAI_NETWORK_ERROR ↔
      (containsSub "boom" "fetch failed" = true ∨ ("TypeError" : String) = "TypeError")) ∧
    (¬(containsSub "boom" "fetch failed" = true ∨ ("TypeError" : String) = "TypeError") →
      (toMcpError (.errorVal "TypeError" "boom")).code = .INTERNAL_SERVER_ERROR) ∧
    (toMcpError (.errorVal "TypeError" "boom")).message = "boom") :=
  ⟨by decide, C6_network_classification "TypeError" "boom" (by decide)⟩

/-- Counterexample to claim C7 as stated: a generic `Error` fault with an
empty message keeps the empty message in the resulting McpError, in both
the network-error branch and the internal-error branch.  The `??` fallbacks
at `server.ts` lines 69 and 75 fire only on a nullish `message`, and
`Error.message` is a string, so the empty string is passed through and no
non-empty default is substituted. -/
theorem C7_counterexample :
    (toMcpError (.errorVal "SomeError" "")).code = .INTERNAL_SERVER_ERROR ∧
    (toMcpError (.errorVal "SomeError" "")).message = "" ∧
    (toMcpError (.errorVal "TypeError" "")).code = .OPENAI_NETWORK_ERROR ∧
    (toMcpError (.errorVal "TypeError" "")).message = "" := by
  decide

/-- Claim C7 (amended): for every generic `Error` fault (name not
`"AbortError"`), the classifier carries the fault's message through
unchanged — in particular an empty message stays empty; the default
messages in the source are unreachable for string-typed messages. -/
theorem C7_message_passthrough (name msg : String) (h : name ≠ "AbortError") :
    (toMcpError (.errorVal name msg)).message = msg := by
  rw [toMcpError_errorVal name msg h]
  by_cases hc : containsSub msg "fetch failed" = true ∨ name = "TypeError"
  · rw [if_pos hc]
  · rw [if_neg hc]

/-- Witness for C7 (amended) at an empty-message fault. -/
theorem C7_message_passthrough_witness :
    ("SomeError" : String) ≠ "AbortError" ∧
    (toMcpError (.errorVal "SomeError" "")).message = "" :=
  ⟨by decide, C7_message_passthrough "SomeError" "" (by decide)⟩

/-- Claim C3: for every HTTP-response fault with non-2xx status `s`, the
classifier returns `OPENAI_RATE_LIMIT` iff `s = 429`, `OPENAI_UPSTREAM_ERROR`
when `s ≥ 500`, and `INTERNAL_SERVER_ERROR` for every other non-2xx status,
always with details `{ status := s, errorText := body text or placeholder }`;
consequently a single 401 response yields exactly one call (no retry) and a
final `INTERNAL_SERVER_ERROR` whose details carry status 401. -/
theorem C3_response_classification :
    (∀ (s : Nat) (b : Option String), s < 200 ∨ 300 ≤ s →
      (toMcpError (.response s b)).details =
          some (.statusText s (b.getD bodyReadPlaceholder)) ∧
      ((toMcpError (.response s b)).code = .OPENAI_RATE_LIMIT ↔ s = 429) ∧
      (500 ≤ s → (toMcpError (.response s b)).code = .OPENAI_UPSTREAM_ERROR) ∧
      (s ≠ 429 → s < 500 →
        (toMcpError (.response s b)).code = .INTERNAL_SERVER_ERROR)) ∧
    (∀ (b : Option String) (rnd : Nat → String) (jit : Nat → ℚ),
      (execute (envAll401 b) rnd jit).calls = 1 ∧
      (execute (envAll401 b) rnd jit).sleeps = [] ∧
      (execute (envAll401 b) rnd jit).result = .mcpErr
        { code := .INTERNAL_SERVER_ERROR
          message := "OpenAI API request failed with status 401."
          details := some (.statusText 401 (b.getD bodyReadPlaceholder)) }) := by
  constructor
  · intro s b _
    rw [toMcpError_response s b]
    by_cases h429 : s = 429
    · subst h429
      rw [if_pos rfl]
      exact ⟨rfl, by simp, by omega, fun h => absurd rfl h⟩
    · rw [if_neg h429]
      by_cases h500 : 500 ≤ s
      · rw [if_pos h500]
        exact ⟨rfl, by simp [h429], fun _ => rfl, by omega⟩
      · rw [if_neg h500]
        exact ⟨rfl, by simp [h429], by omega, fun _ _ => rfl⟩
  · intro b rnd jit
    exact ⟨rfl, rfl, rfl⟩

/-- Witness for C3 at status 401 with an unreadable body. -/
theorem C3_response_classification_witness :
    ((401 : Nat) < 200 ∨ 300 ≤ 401) ∧
    ((toMcpError (.response 401 none)).details =
        some (.statusText 401 ((none : Option String).getD bodyReadPlaceholder)) ∧
     ((toMcpError (.response 401 none)).code = .OPENAI_RATE_LIMIT ↔ 401 = 429) ∧
     (500 ≤ 401 → (toMcpError (.response 401 none)).code = .OPENAI_UPSTREAM_ERROR) ∧
     ((401 : Nat) ≠ 429 → 401 < 500 →
       (toMcpError (.response 401 none)).code = .INTERNAL_SERVER_ERROR)) :=
  ⟨by decide, C3_response_classification.1 401 none (by decide)⟩

/-- Claim C2: a failed attempt with zero-based index `i` is followed by a
further attempt iff its classified code is retryable and `i` is not the last
index (`i < maxAttempts - 1`); otherwise the McpError is the final failure.
Three consecutive HTTP-500 faults produce exactly 3 attempts, exactly the 2
backoff sleeps for indices 0 and 1, and a final `OPENAI_UPSTREAM_ERROR`. -/
theorem C2_retry_policy :
    (∀ (env : Nat → AttemptOutcome) (rnd : Nat → String) (jit : Nat → ℚ)
        (i fuel calls : Nat) (sleeps : List Int) (f : Fault),
      env i = .failure f →
      isRetryable (toMcpError f).code = true → i < maxAttempts - 1 →
      loopFrom env rnd jit i (fuel + 1) calls sleeps =
        loopFrom env rnd jit (i + 1) fuel (calls + 1)
          (sleeps ++ [backoffWait i (jit i)])) ∧
    (∀ (env : Nat → AttemptOutcome) (rnd : Nat → String) (jit : Nat → ℚ)
        (i fuel calls : Nat) (sleeps : List Int) (f : Fault),
      env i = .failure f →
      ¬(isRetryable (toMcpError f).code = true ∧ i < maxAttempts - 1) →
      loopFrom env rnd jit i (fuel + 1) calls sleeps =
        { result := .mcpErr (toMcpError f), calls := calls + 1,
          sleeps := sleeps }) ∧
    (∀ (b : Option String) (rnd : Nat → String) (jit : Nat → ℚ),
      (execute (envAll500 b) rnd jit).calls = 3 ∧
      (execute (envAll500 b) rnd jit).sleeps =
        [backoffWait 0 (jit 0), backoffWait 1 (jit 1)] ∧
      (execute (envAll500 b) rnd jit).result = .mcpErr
        { code := .OPENAI_UPSTREAM_ERROR
          message := "OpenAI API returned an upstream server error."
          details := some (.statusText 500 (b.getD bodyReadPlaceholder)) }) := by
  refine ⟨?_, ?_, ?_⟩
  · intro env rnd jit i fuel calls sleeps f henv hret hlast
    simp [loopFrom, henv, hret, hlast]
  · intro env rnd jit i fuel calls sleeps f henv hc
    simp [loopFrom, henv, hc]
  · intro b rnd jit
    exact ⟨rfl, rfl, rfl⟩

/-- Witness for C2 with a retryable 500 fault at index 0 and a
non-retryable 401 fault at the last index. -/
theorem C2_retry_policy_witness :
    (envAll500 none 0 = .failure (.response 500 none) ∧
     isRetryable (toMcpError (.response 500 none)).code = true ∧
     0 < maxAttempts - 1 ∧
     loopFrom (envAll500 none) (fun _ => "r") (fun _ => 0) 0 (2 + 1) 0 [] =
       loopFrom (envAll500 none) (fun _ => "r") (fun _ => 0) (0 + 1) 2 (0 + 1)
         ([] ++ [backoffWait 0 ((fun _ => (0 : ℚ)) 0)])) ∧
    (envAll401 none 2 = .failure (.response 401 none) ∧
     ¬(isRetryable (toMcpError (.response 401 none)).code = true ∧
        2 < maxAttempts - 1) ∧
     loopFrom (envAll401 none) (fun _ => "r") (fun _ => 0) 2 (0 + 1) 2 [] =
       { result := .mcpErr (toMcpError (.response 401 none)), calls := 2 + 1,
         sleeps := [] }) :=
  ⟨⟨rfl, rfl, by decide,
    C2_retry_policy.1 (envAll500 none) (fun _ => "r") (fun _ => 0) 0 2 0 []
      (.response 500 none) rfl rfl (by decide)⟩,
   ⟨rfl, by decide,
    C2_retry_policy.2.1 (envAll401 none) (fun _ => "r") (fun _ => 0) 2 0 2 []
      (.response 401 none) rfl (by decide)⟩⟩

/-- Claim C1: every invocation of the `retrieveDocs` pipeline with a
non-empty question reaches exactly one of the two terminal states — a single
chunk list or a single propagated McpError — never both and never
neither. -/
theorem C1_exactly_one_outcome (q : String) (env : Nat → AttemptOutcome)
    (rnd : Nat → String) (jit : Nat → ℚ) (h : q ≠ "") :
    ∃ t, retrieveDocs q env rnd jit = some t ∧
      (((∃ cs, t.result = .chunks cs) ∧ ∀ e, t.result ≠ .mcpErr e) ∨
       ((∃ e, t.result = .mcpErr e) ∧ ∀ cs, t.result ≠ .chunks cs)) := by
  refine ⟨execute env rnd jit, ?_, ?_⟩
  · unfold retrieveDocs
    rw [if_pos (one_le_length_of_ne_empty h)]
  · have hex : execute env rnd jit = loopFrom env rnd jit 0 maxAttempts 0 [] :=
      rfl
    rcases loopFrom_terminal env rnd jit maxAttempts 0 0 [] (by omega)
        (by decide) with ⟨cs, hcs⟩ | ⟨e, he⟩
    · exact Or.inl ⟨⟨cs, by rw [hex]; exact hcs⟩,
        fun e => by rw [hex, hcs]; simp⟩
    · exact Or.inr ⟨⟨e, by rw [hex]; exact he⟩,
        fun cs => by rw [hex, he]; simp⟩

/-- Witness for C1 at a concrete question and a first-attempt success. -/
theorem C1_exactly_one_outcome_witness :
    ("q" : String) ≠ "" ∧
    ∃ t, retrieveDocs "q" (fun _ => .success ⟨none⟩) (fun _ => "r")
        (fun _ => 0) = some t ∧
      (((∃ cs, t.result = .chunks cs) ∧ ∀ e, t.result ≠ .mcpErr e) ∨
       ((∃ e, t.result = .mcpErr e) ∧ ∀ cs, t.result ≠ .chunks cs)) :=
  ⟨by decide, C1_exactly_one_outcome "q" (fun _ => .success ⟨none⟩)
    (fun _ => "r") (fun _ => 0) (by decide)⟩

/-- Claim C8: with `maxAttempts = 3 > 0` the loop body returns or throws on
or before its last iteration, so the run always ends in a chunk list or an
McpError and the trailing fallback throw after the loop (`server.ts`
line 297) is unreachable. -/
theorem C8_fallback_unreachable (env : Nat → AttemptOutcome)
    (rnd : Nat → String) (jit : Nat → ℚ) :
    ((∃ cs, (execute env rnd jit).result = .chunks cs) ∨
     (∃ e, (execute env rnd jit).result = .mcpErr e)) ∧
    ∀ msg, (execute env rnd jit).result ≠ .fallbackThrow msg := by
  have hex : execute env rnd jit = loopFrom env rnd jit 0 maxAttempts 0 [] :=
    rfl
  have hterm := loopFrom_terminal env rnd jit maxAttempts 0 0 [] (by omega)
    (by decide)
  rw [hex]
  refine ⟨hterm, fun msg => ?_⟩
  rcases hterm with ⟨cs, hcs⟩ | ⟨e, he⟩
  · rw [hcs]; simp
  · rw [he]; simp

/-- Claim C4: the normalizer emits exactly one chunk per result item of each
output item whose type is `"file_search_call"` and whose results field is a
proper array, preserving order across and within items; missing `id` becomes
a generated non-empty fallback token, missing `text` the empty string,
missing `score` zero; other items are skipped, and a response with zero
file-search-call items yields the empty chunk list. -/
theorem C4_normalizer :
    (∀ (rnd : Nat → String) (resp : OpenAiFileSearchResponse),
      extractChunks rnd resp =
        (selectedResults (resp.output.getD [])).enum.map
          fun p => mkChunk (rnd p.1) p.2) ∧
    (∀ s, mkChunk s ⟨none, none, none⟩ =
        { id := "unknown_id_" ++ s, text := "", score := 0 } ∧
      "unknown_id_" ++ s ≠ "") ∧
    (∀ s i t sc, mkChunk s ⟨some i, some t, some sc⟩ =
        { id := i, text := t, score := sc }) ∧
    (∀ (rnd : Nat → String) (resp : OpenAiFileSearchResponse),
      (∀ it ∈ resp.output.getD [], it.type ≠ "file_search_call") →
      extractChunks rnd resp = []) := by
  refine ⟨?_, ?_, ?_, ?_⟩
  · intro rnd resp
    unfold extractChunks
    rw [flatMap_callResults_eq_selectedResults]
  · intro s
    refine ⟨rfl, fun hcontra => ?_⟩
    have hlen := congrArg String.length hcontra
    rw [String.length_append] at hlen
    have h11 : ("unknown_id_" : String).length = 11 := rfl
    have h0 : ("" : String).length = 0 := rfl
    omega
  · intro s i t sc
    rfl
  · intro rnd resp hno
    unfold extractChunks
    rw [flatMap_callResults_eq_selectedResults]
    have hfil : (resp.output.getD []).filter
        (fun it => it.type == "file_search_call" && it.results.isSome) = [] := by
      rw [List.filter_eq_nil_iff]
      intro it hit
      simp only [Bool.and_eq_true, beq_iff_eq, not_and]
      intro h1
      exact absurd h1 (hno it hit)
    unfold selectedResults
    rw [hfil]
    rfl

/-- Witness for C4 at a response whose only output item is not a
file-search call. -/
theorem C4_normalizer_witness :
    (∀ it ∈ (OpenAiFileSearchResponse.mk
        (some [⟨"message", some [⟨some "y", none, none⟩]⟩])).output.getD [],
      it.type ≠ "file_search_call") ∧
    extractChunks (fun _ => "r")
      ⟨some [⟨"message", some [⟨some "y", none, none⟩]⟩]⟩ = [] :=
  ⟨by decide, C4_normalizer.2.2.2 (fun _ => "r")
    ⟨some [⟨"message", some [⟨some "y", none, none⟩]⟩]⟩ (by decide)⟩

/-- Claim C5: for every attempt index `a` and uniform sample `u ∈ [0, 1)`,
the computed jitter is an integer in `[-100, 100]`, the wait equals
`max(0, 500 · 2^a + jitter)`, and the single sleep after a first-attempt 429
(index 0) lies in `[400, 600]` ms. -/
theorem C5_backoff_bounds (a : Nat) (u : ℚ) (h0 : 0 ≤ u) (h1 : u < 1) :
    (-100 ≤ jitterOf u ∧ jitterOf u ≤ 100) ∧
    backoffWait a u = max 0 ((baseDelay : Int) * 2 ^ a + jitterOf u) ∧
    400 ≤ backoffWait 0 u ∧ backoffWait 0 u ≤ 600 := by
  have h2 : (0 : ℚ) ≤ u * 201 := by positivity
  have h3 : u * 201 < 201 := by nlinarith
  have l1 : (0 : ℤ) ≤ ⌊u * 201⌋ := Int.floor_nonneg.mpr h2
  have l2 : ⌊u * 201⌋ < 201 := Int.floor_lt.mpr (by exact_mod_cast h3)
  have hj : -100 ≤ jitterOf u ∧ jitterOf u ≤ 100 := by
    unfold jitterOf
    omega
  obtain ⟨hj1, hj2⟩ := hj
  have e1 : (baseDelay : Int) * 2 ^ (0 : ℕ) + jitterOf u =
      500 + jitterOf u := by
    unfold baseDelay
    norm_num
  have hx : (0 : ℤ) ≤ 500 + jitterOf u := by omega
  refine ⟨⟨hj1, hj2⟩, rfl, ?_, ?_⟩
  · unfold backoffWait
    rw [e1, max_eq_right hx]
    omega
  · unfold backoffWait
    rw [e1, max_eq_right hx]
    omega

/-- Witness for C5 at sample `u = 0` (jitter −100, wait 400 ms). -/
theorem C5_backoff_bounds_witness :
    ((0 : ℚ) ≤ 0 ∧ (0 : ℚ) < 1) ∧
    ((-100 ≤ jitterOf 0 ∧ jitterOf 0 ≤ 100) ∧
     backoffWait 0 0 = max 0 ((baseDelay : Int) * 2 ^ (0 : ℕ) + jitterOf 0) ∧
     400 ≤ backoffWait 0 0 ∧ backoffWait 0 0 ≤ 600) :=
  ⟨⟨le_refl 0, zero_lt_one⟩, C5_backoff_bounds 0 0 (le_refl 0) zero_lt_one⟩

end FileSearchMcp

example : FileSearchMcp.containsSub "a fetch failed here" "fetch failed" = true := by decide

example : FileSearchMcp.containsSub "boom" "fetch failed" = false := by decide

example :
    (FileSearchMcp.toMcpError (.response 429 (some "slow down"))).code =
      FileSearchMcp.ErrCode.OPENAI_RATE_LIMIT := by decide
